import Mathlib

/-!
Verification development for the gcp-release-digest repository.

The Lean definitions below are a shallow embedding of the Go sources:

* `rateLimiter`, `newRateLimiter`, `rateLimiter.reset`, `rateLimiter.acquire`
  embed the token-pool rate limiter of pkg/notify/notify.go.  Time is a `Nat`
  (the unit is irrelevant; the Go code uses `time.Duration` with
  `time.Minute`, modelled here as 60 seconds).  `acquire` is modelled as a
  step function returning the new state together with a Bool saying whether a
  permit was issued at that instant; the Go call blocks instead of returning
  `false`, so a `false` step is exactly the situation in which the Go call
  would block.
* The notifier operations of pkg/notify/notify.go are embedded as pure
  functions producing the list of primitive actions they perform (permit
  acquisition, raw send) plus the result computed from an abstract transport
  outcome.
* The BigQuery query construction of pkg/products/products.go and
  pkg/releasenotes is embedded as `BQQuery` builders, and the semantics of
  the SQL texts themselves (DISTINCT / GROUP BY / ORDER BY / LIMIT) as list
  functions over an abstract table of rows.
* The orchestrator of digest.go is embedded as a deterministic function from
  a configuration and a family of call oracles to the trace of external
  calls it performs plus an outcome.
-/

set_option maxRecDepth 4000
set_option linter.unnecessarySeqFocus false

/-! ## Rate limiter (pkg/notify/notify.go) -/

/-- State of the token-pool rate limiter of pkg/notify/notify.go.  The Go
`tokens chan struct\x7b\x7d` of capacity `limit` is modelled by the number of
tokens currently buffered in it. -/
structure rateLimiter where
  limit : Nat
  duration : Nat
  tokens : Nat
  lastReset : Nat
deriving DecidableEq, Repr

/-- `newRateLimiter` builds the limiter and calls `reset`, so the pool starts
full. -/
def newRateLimiter (limit duration now : Nat) : rateLimiter :=
  { limit := limit, duration := duration, tokens := limit, lastReset := now }

/-- `reset` replaces the channel by a fresh one holding `limit` tokens and
stamps `lastReset` with the current time. -/
def rateLimiter.reset (rl : rateLimiter) (now : Nat) : rateLimiter :=
  { rl with tokens := rl.limit, lastReset := now }

/-- `acquire` at time `now`: reset first when a full window has elapsed, then
take a token.  The Bool is `true` when a permit is issued; `false` is the
case in which the Go code blocks on the empty channel. -/
def rateLimiter.acquire (rl : rateLimiter) (now : Nat) : rateLimiter × Bool :=
  let rl' := if rl.duration ≤ now - rl.lastReset then rl.reset now else rl
  if rl'.tokens = 0 then (rl', false) else
    ({ rl' with tokens := rl'.tokens - 1 }, true)

/-- Run a sequence of acquire attempts at the given times; the result pairs
each attempt time with whether a permit was issued then. -/
def runAcquires (rl : rateLimiter) : List Nat → List (Nat × Bool) × rateLimiter
  | [] => ([], rl)
  | t :: ts =>
    let step := rl.acquire t
    let rest := runAcquires step.1 ts
    ((t, step.2) :: rest.1, rest.2)

/-- The times at which a permit was issued during a run. -/
def issuedTimes (rl : rateLimiter) (ts : List Nat) : List Nat :=
  ((runAcquires rl ts).1.filter (fun p => p.2)).map (fun p => p.1)

/-- The number of permits issued during a run. -/
def issuedCount (rl : rateLimiter) (ts : List Nat) : Nat :=
  (issuedTimes rl ts).length

theorem issuedCount_nil (rl : rateLimiter) : issuedCount rl [] = 0 := rfl

theorem issuedCount_cons (rl : rateLimiter) (t : Nat) (ts : List Nat) :
    issuedCount rl (t :: ts) =
      (if (rl.acquire t).2 then 1 else 0) + issuedCount (rl.acquire t).1 ts := by
  simp only [issuedCount, issuedTimes, runAcquires, List.filter]
  cases h : (rl.acquire t).2 <;> simp [h] <;> omega

/-- If every attempt time stays strictly inside the current window (and the
window has positive length), no reset fires, so the number of issued permits
is bounded by the tokens currently in the pool. -/
theorem issuedCount_le_tokens (ts : List Nat) :
    ∀ (rl : rateLimiter), 0 < rl.duration →
      (∀ t ∈ ts, t < rl.lastReset + rl.duration) →
      issuedCount rl ts ≤ rl.tokens := by
  induction ts with
  | nil => intro rl _ _; simp [issuedCount_nil]
  | cons t ts ih =>
    intro rl hd hw
    have ht : t < rl.lastReset + rl.duration := hw t (by simp)
    have hnores : ¬ rl.duration ≤ t - rl.lastReset := by
      intro hle
      have h1 : t - rl.lastReset < rl.duration := by
        rcases Nat.le_total rl.lastReset t with h | h
        · omega
        · omega
      omega
    rw [issuedCount_cons]
    by_cases htok : rl.tokens = 0
    · have hstep : rl.acquire t = (rl, false) := by
        simp [rateLimiter.acquire, hnores, htok]
      have h2 := ih rl hd (fun x hx => hw x (List.mem_cons_of_mem _ hx))
      rw [hstep]
      show 0 + issuedCount rl ts ≤ rl.tokens
      omega
    · have hstep : rl.acquire t =
          ({ rl with tokens := rl.tokens - 1 }, true) := by
        simp [rateLimiter.acquire, hnores, htok]
      have h2 := ih { rl with tokens := rl.tokens - 1 } hd
        (fun x hx => hw x (List.mem_cons_of_mem _ hx))
      have h3 : ({ rl with tokens := rl.tokens - 1 } : rateLimiter).tokens =
          rl.tokens - 1 := rfl
      rw [h3] at h2
      rw [hstep]
      show 1 + issuedCount { rl with tokens := rl.tokens - 1 } ts ≤ rl.tokens
      omega

/-- From a state whose window has just been stamped `t`, `k` further attempts
at time `t` issue exactly `min k tokens` permits (window length positive). -/
theorem issuedCount_replicate (k : Nat) :
    ∀ (rl : rateLimiter) (t : Nat), 0 < rl.duration → rl.lastReset = t →
      issuedCount rl (List.replicate k t) = min k rl.tokens := by
  induction k with
  | zero => intro rl t _ _; simp [issuedCount_nil]
  | succ k ih =>
    intro rl t hd hlr
    have hnores : ¬ rl.duration ≤ t - rl.lastReset := by omega
    rw [List.replicate_succ, issuedCount_cons]
    by_cases htok : rl.tokens = 0
    · have hstep : rl.acquire t = (rl, false) := by
        simp [rateLimiter.acquire, hnores, htok]
      have h2 := ih rl t hd hlr
      rw [hstep]
      show 0 + issuedCount rl (List.replicate k t) = min (k + 1) rl.tokens
      omega
    · have hstep : rl.acquire t =
          ({ rl with tokens := rl.tokens - 1 }, true) := by
        simp [rateLimiter.acquire, hnores, htok]
      have h2 := ih { rl with tokens := rl.tokens - 1 } t hd hlr
      have h3 : ({ rl with tokens := rl.tokens - 1 } : rateLimiter).tokens =
          rl.tokens - 1 := rfl
      rw [h3] at h2
      rw [hstep]
      show 1 + issuedCount { rl with tokens := rl.tokens - 1 }
        (List.replicate k t) = min (k + 1) rl.tokens
      omega

/-! ## Notifier (pkg/notify/notify.go) -/

/-- The HTTP request built by `SendMessage`: method, destination URL, the
Content-Type header value and the body bytes. -/
structure HttpRequest where
  method : String
  url : String
  contentType : String
  body : String
deriving DecidableEq, Repr

/-- Primitive actions a notifier operation performs: acquiring one permit
from the webhook rate limiter, and invoking the raw send primitive
(`SendMessage`) with a fully built request. -/
inductive NotifyAction where
  | acquirePermit : NotifyAction
  | send : HttpRequest → NotifyAction
deriving DecidableEq, Repr

/-- Outcome of the HTTP layer underneath `SendMessage`: request construction
failure, transport failure from the client call, or a response carrying a
numeric status code and a status line. -/
inductive Transport where
  | reqError : String → Transport
  | doError : String → Transport
  | response : Nat → String → Transport
deriving DecidableEq, Repr

/-- The request `SendMessage` builds: HTTP POST to the webhook URL with
Content-Type `application/json; charset=UTF-8` and the message string as
body. -/
def mkRequest (webhookURL msgStr : String) : HttpRequest :=
  { method := "POST", url := webhookURL,
    contentType := "application/json; charset=UTF-8", body := msgStr }

/-- `SendMessage` posts the message and returns the response status line;
construction and transport errors are surfaced, a received response is
returned as its status line with no error regardless of the status code. -/
def SendMessage (webhookURL msgStr : String) (t : Transport) :
    List NotifyAction × Except String String :=
  ([NotifyAction.send (mkRequest webhookURL msgStr)],
    match t with
    | Transport.reqError e => Except.error e
    | Transport.doError e => Except.error e
    | Transport.response _ status => Except.ok status)

/-- The message text `Announce` composes: empty for an empty product list,
otherwise a header with the product count and as-of date followed by one
bullet line per product and a trailer. -/
def announceMsgText (dateStr : String) (products : List String) : String :=
  if products.length > 0 then
    "*Found release notes for " ++ toString products.length ++
      " products since " ++ dateStr ++ "*\n" ++
      String.join (products.map (fun p => "* *" ++ p ++ "*\n")) ++
      "\n\n*And here it is...*"
  else ""

/-- `Announce`: computes the as-of date as today minus the cadence in days
(the Go `time.Now().AddDate(0, 0, -cadenceInt)` with `Format`, modelled by
an integer day number `now` and an abstract date formatter), wraps the
message text in the literal template, and sends it.  The Go call site in
digest.go discards both return values. -/
def Announce (webhookURL : String) (now cadenceInt : Int) (fmtDate : Int → String)
    (products : List String) (t : Transport) :
    List NotifyAction × Except String String :=
  SendMessage webhookURL
    ("\x7b\"text\": \"" ++ announceMsgText (fmtDate (now - cadenceInt)) products
      ++ "\"\x7d") t

/-- `SendToWebhook` first acquires one rate-limiter permit, then sends the
summary message.  The Go format string is a raw literal whose two-character
sequences backslash-n survive into the body, followed by an interpreted
string of two real newline characters. -/
def SendToWebhook (product summaryResult webhookURL : String) (t : Transport) :
    List NotifyAction × Except String String :=
  let r := SendMessage webhookURL
    ("\x7b\"text\": \"*" ++ product ++ ":*\\n\\n" ++ summaryResult ++
      "\n\n\"\x7d") t
  (NotifyAction.acquirePermit :: r.1, r.2)

/-- `ClosingMessage` wraps the given text in bold inside the literal
template and sends it; no permit is acquired. -/
def ClosingMessage (webhookURL anyMsg : String) (t : Transport) :
    List NotifyAction × Except String String :=
  SendMessage webhookURL ("\x7b \"text\": \"*" ++ anyMsg ++ "*\"\x7d") t

/-- The process-wide limiter: `newRateLimiter(50, time.Minute)`, modelled in
seconds with creation time 0. -/
def webhookRateLimiter : rateLimiter := newRateLimiter 50 60 0

/-! ## A strict JSON checker for single-field text objects

`parseJsonTextObject` accepts exactly the RFC-style JSON objects of the form
an opening brace, a JSON string equal to `text`, a colon, a JSON string
value, and a closing brace, with optional whitespace between tokens; string
contents may not contain raw control characters and escapes are the standard
JSON ones.  It returns the decoded value on success. -/

/-- Decode a single-character JSON escape. -/
def jEscape (c : Char) : Option Char :=
  if c = '"' then some '"'
  else if c = '\\' then some '\\'
  else if c = '/' then some '/'
  else if c = 'b' then some (Char.ofNat 8)
  else if c = 'f' then some (Char.ofNat 12)
  else if c = 'n' then some '\n'
  else if c = 'r' then some (Char.ofNat 13)
  else if c = 't' then some (Char.ofNat 9)
  else none

/-- Value of a hexadecimal digit. -/
def hexVal (c : Char) : Option Nat :=
  if '0' ≤ c ∧ c ≤ '9' then some (c.toNat - 48)
  else if 'a' ≤ c ∧ c ≤ 'f' then some (c.toNat - 87)
  else if 'A' ≤ c ∧ c ≤ 'F' then some (c.toNat - 55)
  else none

/-- Parse the remainder of a JSON string (the opening quote already
consumed), returning the decoded characters and the unconsumed input.  The
fuel argument only serves termination; any fuel larger than the input length
is enough. -/
def parseJStringAux : Nat → List Char → Option (List Char × List Char)
  | 0, _ => none
  | _ + 1, [] => none
  | fuel + 1, c :: rest =>
    if c = '"' then some ([], rest)
    else if c.toNat < 32 then none
    else if c = '\\' then
      match rest with
      | 'u' :: h1 :: h2 :: h3 :: h4 :: rest2 =>
        match hexVal h1, hexVal h2, hexVal h3, hexVal h4 with
        | some a, some b, some c2, some d =>
          match parseJStringAux fuel rest2 with
          | some (s, r) =>
            some (Char.ofNat (((a * 16 + b) * 16 + c2) * 16 + d) :: s, r)
          | none => none
        | _, _, _, _ => none
      | e :: rest2 =>
        match jEscape e with
        | some d =>
          match parseJStringAux fuel rest2 with
          | some (s, r) => some (d :: s, r)
          | none => none
        | none => none
      | [] => none
    else
      match parseJStringAux fuel rest with
      | some (s, r) => some (c :: s, r)
      | none => none

/-- Drop leading JSON whitespace. -/
def skipWs : List Char → List Char
  | [] => []
  | c :: rest =>
    if c = ' ' ∨ c.toNat = 9 ∨ c = '\n' ∨ c.toNat = 13 then skipWs rest
    else c :: rest

/-- Accept exactly a JSON object with the single field `text` holding a
string, returning the decoded field value. -/
def parseJsonTextObject (s : String) : Option String :=
  match skipWs s.data with
  | c :: rest =>
    if c = Char.ofNat 123 then
      match skipWs rest with
      | q :: rest2 =>
        if q = '"' then
          match parseJStringAux (rest2.length + 1) rest2 with
          | some (name, rest3) =>
            if name = ['t', 'e', 'x', 't'] then
              match skipWs rest3 with
              | colon :: rest4 =>
                if colon = ':' then
                  match skipWs rest4 with
                  | q2 :: rest5 =>
                    if q2 = '"' then
                      match parseJStringAux (rest5.length + 1) rest5 with
                      | some (v, rest6) =>
                        match skipWs rest6 with
                        | cb :: rest7 =>
                          if cb = Char.ofNat 125 ∧ skipWs rest7 = [] then
                            some v.asString
                          else none
                        | [] => none
                      | none => none
                    else none
                  | [] => none
                else none
              | [] => none
            else none
          | none => none
        else none
      | [] => none
    else none
  | [] => none

/-! ## Query construction (pkg/products/products.go, pkg/releasenotes) -/

/-- A BigQuery query parameter value: a plain string or an array of strings
(used with UNNEST). -/
inductive ParamVal where
  | str : String → ParamVal
  | strList : List String → ParamVal
deriving DecidableEq, Repr

/-- A named query parameter. -/
structure QueryParameter where
  name : String
  value : ParamVal
deriving DecidableEq, Repr

/-- A constructed BigQuery query: its SQL text, its location and its bound
parameters. -/
structure BQQuery where
  text : String
  location : String
  parameters : List QueryParameter
deriving DecidableEq, Repr

/-- The query built by `GetProductsbyReleaseType`: the cadence is
concatenated into the SQL text, the release-note type is bound as the
parameter `release_note_type`. -/
def GetProductsbyReleaseTypeQuery (releaseNotebyType cadence : String) :
    BQQuery :=
  { text := "\nSELECT \n\tDISTINCT product_name as product\nFROM bigquery-public-data.google_cloud_release_notes.release_notes\nWHERE\n\tpublished_at >= DATE_SUB(CURRENT_DATE(), INTERVAL "
      ++ cadence
      ++ " DAY)\n\tAND release_note_type = @release_note_type\nORDER BY product_name ASC\n\t",
    location := "US",
    parameters := [⟨"release_note_type", ParamVal.str releaseNotebyType⟩] }

/-- The query built by `GetProducts`: the cadence is concatenated into the
SQL text, the set of unassigned release-note types is bound as the array
parameter `noActiveChannel`. -/
def GetProductsQuery (noActiveChannelTypes : List String) (cadence : String) :
    BQQuery :=
  { text := "\n\tSELECT \n\t\tDISTINCT product_name as product\n\tFROM bigquery-public-data.google_cloud_release_notes.release_notes\n\tWHERE\n\t\tpublished_at >= DATE_SUB(CURRENT_DATE(), INTERVAL "
      ++ cadence
      ++ " DAY)\n\t\tAND release_note_type IN UNNEST(@noActiveChannel)\n    ORDER BY product_name ASC\n\t\t",
    location := "US",
    parameters := [⟨"noActiveChannel", ParamVal.strList noActiveChannelTypes⟩] }

/-- The query built by `GetReleaseNotes`: cadence concatenated into the
text; the product and the type set bound as parameters. -/
def GetReleaseNotesQuery (product : String) (noActiveChannelTypes : List String)
    (cadence : String) : BQQuery :=
  { text := "\n\tSELECT\n\t\trelease_note_type,\n\t\tdescription,\n\tFROM bigquery-public-data.google_cloud_release_notes.release_notes\n\tWHERE\n\t\tpublished_at >= DATE_SUB(CURRENT_DATE(), INTERVAL "
      ++ cadence
      ++ " DAY)\n\t\tAND product_name = @product\n\t\tAND release_note_type IN UNNEST(@noActiveChannel)\n\tGROUP BY release_note_type, description\n\tORDER BY release_note_type ASC\n\tLIMIT 1000;\n\t\t",
    location := "US",
    parameters := [⟨"product", ParamVal.str product⟩,
      ⟨"noActiveChannel", ParamVal.strList noActiveChannelTypes⟩] }

/-- The query built by `GetReleaseNotesbyType`: cadence concatenated into
the text; the type and the product bound as parameters. -/
def GetReleaseNotesbyTypeQuery (product releaseNotebyType cadence : String) :
    BQQuery :=
  { text := "\n\tSELECT\n\t\trelease_note_type,\n\t\tdescription,\n\tFROM bigquery-public-data.google_cloud_release_notes.release_notes\n\tWHERE\n\t\tpublished_at >= DATE_SUB(CURRENT_DATE(), INTERVAL "
      ++ cadence
      ++ " DAY)\n\t\tAND product_name = @product\n\t\tAND release_note_type = @release_note_type\n\tGROUP BY release_note_type, description\n\tORDER BY release_note_type ASC\n\tLIMIT 1000;\n\t\t",
    location := "US",
    parameters := [⟨"release_note_type", ParamVal.str releaseNotebyType⟩,
      ⟨"product", ParamVal.str product⟩] }

/-! ## Semantics of the SQL texts over an abstract table -/

/-- One row of the release-notes table.  `daysAgo` is the age of the row in
days, so the WHERE clause published_at >= DATE_SUB(CURRENT_DATE(), INTERVAL
c DAY) is `daysAgo ≤ c`. -/
structure NoteRow where
  product_name : String
  release_note_type : String
  description : String
  daysAgo : Nat
deriving DecidableEq, Repr

/-- Result of the products-by-type query text: rows in the window with the
given type, projected to product names, made DISTINCT and ordered by
product_name ascending. -/
def productsByTypeRows (table : List NoteRow) (typ : String) (cadence : Nat) :
    List String :=
  List.insertionSort (· ≤ ·)
    (((table.filter
        (fun r => r.daysAgo ≤ cadence && r.release_note_type == typ)).map
      (fun r => r.product_name)).dedup)

/-- Result of the release-notes-by-type query text: rows in the window for
the given product and type, projected to (type, description), grouped (made
distinct), ordered by type ascending, and capped by LIMIT 1000. -/
def releaseNotesByTypeRows (table : List NoteRow) (product typ : String)
    (cadence : Nat) : List (String × String) :=
  (List.insertionSort (fun a b => a.1 ≤ b.1)
    (((table.filter (fun r => r.daysAgo ≤ cadence && r.product_name == product
        && r.release_note_type == typ)).map
      (fun r => (r.release_note_type, r.description))).dedup)).take 1000

instance : IsTotal (String × String) (fun a b => a.1 ≤ b.1) :=
  ⟨fun a b => le_total a.1 b.1⟩

instance : IsTrans (String × String) (fun a b => a.1 ≤ b.1) :=
  ⟨fun _ _ _ h1 h2 => le_trans h1 h2⟩

/-! ## Orchestrator (digest.go) -/

/-- The environment variables digest reads. -/
structure Config where
  projectID : String
  model : String
  modelLocation : String
  cadence : String
  chGeneral : String
  chBreakingChange : String
  chDeprecation : String
  chFeature : String
  chFix : String
  chIssue : String
  chLibraries : String
  chNonBreakingChange : String
  chSecurityBulletin : String
  chServiceAnnouncement : String
deriving DecidableEq, Repr

def parseDigitsAux : List Char → Nat → Option Nat
  | [], acc => some acc
  | c :: cs, acc =>
    if c.isDigit then parseDigitsAux cs (acc * 10 + (c.toNat - 48)) else none

def parseDigits : List Char → Option Nat
  | [] => none
  | cs => parseDigitsAux cs 0

/-- Model of strconv.Atoi: an optional sign followed by a nonempty run of
decimal digits. -/
def atoi (s : String) : Option Int :=
  match s.data with
  | [] => none
  | '+' :: cs => (parseDigits cs).map (fun n => (n : Int))
  | '-' :: cs => (parseDigits cs).map (fun n => -(n : Int))
  | cs => (parseDigits cs).map (fun n => (n : Int))

/-- External calls the orchestrator performs, in order. -/
inductive Ev where
  | queryProductsByType (typ cadence : String)
  | queryProducts (types : List String) (cadence : String)
  | announceEv (url : String) (cadenceInt : Int) (products : List String)
  | queryNotesByType (product typ cadence : String)
  | queryNotes (product : String) (types : List String) (cadence : String)
  | summarizeEv (product : String) (notes : List String)
  | sendSummary (product summary url : String)
  | closeEv (url msg : String)
deriving DecidableEq, Repr

/-- How an invocation ends: an early return on bad configuration, a
log.Fatalf abort, or normal completion. -/
inductive Outcome where
  | configAbort : Outcome
  | fatalError : Outcome
  | completed : Outcome
deriving DecidableEq, Repr

/-- Results of the external collaborators, one entry per call shape. -/
structure Oracles where
  getProductsbyReleaseType : String → String → Except String (List String)
  getProducts : List String → String → Except String (List String)
  getReleaseNotesbyType :
    String → String → String → Except String (List (String × String))
  getReleaseNotes :
    String → List String → String → Except String (List (String × String))
  summarize : String → List String → Except String String
  announce : String → Int → List String → Except String String
  sendToWebhook : String → String → String → Except String String
  closingMessage : String → String → Except String String

/-- The closing text digest sends. -/
def closingText : String := "That\x27s all folks!"

/-- digest.go flattens the (type, description) records into a single slice,
appending both fields of each record. -/
def notesSlice (notes : List (String × String)) : List String :=
  (notes.map (fun r => [r.1, r.2])).flatten

/-- The per-product loop of digest.go: fetch notes, summarize, deliver;
every error is a log.Fatalf that stops the whole invocation.  Returns the
calls made and whether the loop ran to completion. -/
def runProducts
    (fetchNotes : String → Ev × Except String (List (String × String)))
    (summarizeO : String → List String → Except String String)
    (sendO : String → String → Except String String) (url : String) :
    List String → List Ev × Bool
  | [] => ([], true)
  | p :: ps =>
    let f := fetchNotes p
    match f.2 with
    | Except.error _ => ([f.1], false)
    | Except.ok notes =>
      let slice := notesSlice notes
      match summarizeO p slice with
      | Except.error _ => ([f.1, Ev.summarizeEv p slice], false)
      | Except.ok summary =>
        match sendO p summary with
        | Except.error _ =>
          ([f.1, Ev.summarizeEv p slice, Ev.sendSummary p summary url], false)
        | Except.ok _ =>
          let rest := runProducts fetchNotes summarizeO sendO url ps
          (f.1 :: Ev.summarizeEv p slice :: Ev.sendSummary p summary url ::
            rest.1, rest.2)

/-- One channel of digest.go: query the products (fatal on error), call
Announce (its status and error are discarded by the call site: the
following err check reads the stale, necessarily nil, err of the preceding
query), run the per-product loop, and send the closing message only when
the product list is non-empty. -/
def runChannel (o : Oracles) (url : String) (cadenceInt : Int)
    (fetchProducts : Ev × Except String (List String))
    (fetchNotes : String → Ev × Except String (List (String × String))) :
    List Ev × Bool :=
  match fetchProducts.2 with
  | Except.error _ => ([fetchProducts.1], false)
  | Except.ok ps =>
    let _ := o.announce url cadenceInt ps
    let hd := [fetchProducts.1, Ev.announceEv url cadenceInt ps]
    let body := runProducts fetchNotes o.summarize
      (fun p s => o.sendToWebhook p s url) url ps
    if body.2 then
      if ps.length > 0 then
        match o.closingMessage url closingText with
        | Except.error _ =>
          (hd ++ body.1 ++ [Ev.closeEv url closingText], false)
        | Except.ok _ =>
          (hd ++ body.1 ++ [Ev.closeEv url closingText], true)
      else (hd ++ body.1, true)
    else (hd ++ body.1, false)

/-- A category-specific channel: products come from
`GetProductsbyReleaseType`, notes from `GetReleaseNotesbyType`. -/
def specificChannel (o : Oracles) (cadence : String) (cadenceInt : Int)
    (typ url : String) : List Ev × Bool :=
  runChannel o url cadenceInt
    (Ev.queryProductsByType typ cadence, o.getProductsbyReleaseType typ cadence)
    (fun p =>
      (Ev.queryNotesByType p typ cadence, o.getReleaseNotesbyType p typ cadence))

/-- The loop over active category-specific channels; a fatal error in one
channel stops the whole invocation. -/
def runSpecificChannels (o : Oracles) (cadence : String) (cadenceInt : Int) :
    List (String × String) → List Ev × Bool
  | [] => ([], true)
  | (typ, url) :: rest =>
    let r := specificChannel o cadence cadenceInt typ url
    if r.2 then
      let rr := runSpecificChannels o cadence cadenceInt rest
      (r.1 ++ rr.1, rr.2)
    else (r.1, false)

/-- The GENERAL channel: products come from `GetProducts` over the
unassigned types, notes from `GetReleaseNotes`. -/
def generalChannel (o : Oracles) (cadence : String) (cadenceInt : Int)
    (url : String) (noActive : List String) : List Ev × Bool :=
  runChannel o url cadenceInt
    (Ev.queryProducts noActive cadence, o.getProducts noActive cadence)
    (fun p => (Ev.queryNotes p noActive cadence,
      o.getReleaseNotes p noActive cadence))

/-- The fixed category names, in the order digest.go lists them. -/
def channelNames : List String :=
  ["BREAKING_CHANGE", "DEPRECATION", "FEATURE", "FIX", "ISSUE", "LIBRARIES",
    "NON_BREAKING_CHANGE", "SECURITY_BULLETIN", "SERVICE_ANNOUNCEMENT"]

/-- The nine category webhook values, in the same order. -/
def channelValues (cfg : Config) : List String :=
  [cfg.chBreakingChange, cfg.chDeprecation, cfg.chFeature, cfg.chFix,
    cfg.chIssue, cfg.chLibraries, cfg.chNonBreakingChange,
    cfg.chSecurityBulletin, cfg.chServiceAnnouncement]

/-- Channels with a non-empty webhook, as (category, URL) pairs. -/
def activeChannels (cfg : Config) : List (String × String) :=
  (channelNames.zip (channelValues cfg)).filter (fun p => p.2 != "")

/-- Category names whose webhook is empty; these fall through to GENERAL. -/
def noActiveChannel (cfg : Config) : List String :=
  ((channelNames.zip (channelValues cfg)).filter (fun p => p.2 == "")).map
    (fun p => p.1)

/-- The digest entry point: configuration checks (each missing variable is
an early return before any external call), the cadence integer check, the
at-least-one-channel check, then the specific channels followed by the
GENERAL channel when configured. -/
def digest (cfg : Config) (o : Oracles) : List Ev × Outcome :=
  if cfg.projectID = "" then ([], Outcome.configAbort)
  else if cfg.model = "" then ([], Outcome.configAbort)
  else if cfg.modelLocation = "" then ([], Outcome.configAbort)
  else if cfg.cadence = "" then ([], Outcome.configAbort)
  else
    match atoi cfg.cadence with
    | none => ([], Outcome.configAbort)
    | some cadenceInt =>
      if cfg.chGeneral = "" ∧ activeChannels cfg = [] then
        ([], Outcome.configAbort)
      else
        let spec := runSpecificChannels o cfg.cadence cadenceInt
          (activeChannels cfg)
        if spec.2 then
          if cfg.chGeneral ≠ "" then
            let gen := generalChannel o cfg.cadence cadenceInt cfg.chGeneral
              (noActiveChannel cfg)
            (spec.1 ++ gen.1,
              if gen.2 then Outcome.completed else Outcome.fatalError)
          else (spec.1, Outcome.completed)
        else (spec.1, Outcome.fatalError)

/-! ## Helper lemmas -/

theorem asString_data (s : String) : s.data.asString = s := by
  cases s
  rfl

theorem skipWs_not_ws (c : Char) (l : List Char)
    (h : ¬(c = ' ' ∨ c.toNat = 9 ∨ c = '\n' ∨ c.toNat = 13)) :
    skipWs (c :: l) = c :: l := by
  simp [skipWs, h]

theorem skipWs_space (l : List Char) : skipWs (' ' :: l) = skipWs l := by
  simp [skipWs]

/-- A run of plain characters (no quote, no backslash, no control) followed
by a closing quote parses to exactly that run. -/
theorem parseJStringAux_plain (cs : List Char) :
    ∀ (fuel : Nat) (rest : List Char), cs.length < fuel →
      (∀ c ∈ cs, c ≠ '"' ∧ c ≠ '\\' ∧ 32 ≤ c.toNat) →
      parseJStringAux fuel (cs ++ '"' :: rest) = some (cs, rest) := by
  induction cs with
  | nil =>
    intro fuel rest hfuel _
    match fuel, hfuel with
    | fuel + 1, _ => simp [parseJStringAux]
  | cons c cs ih =>
    intro fuel rest hfuel hcs
    match fuel, hfuel with
    | fuel + 1, hfuel =>
      have hc := hcs c (by simp)
      have h1 : ¬ c = '"' := hc.1
      have h2 : ¬ c.toNat < 32 := by omega
      have h3 : ¬ c = '\\' := hc.2.1
      have hrec := ih fuel rest (by simpa using Nat.lt_succ_iff.mp hfuel)
        (fun x hx => hcs x (by simp [hx]))
      simp only [List.cons_append, parseJStringAux, h1, h2, h3, if_false,
        if_neg h1, if_neg h2, if_neg h3, List.append_eq]
      rw [hrec]

/-- The closing-message template around a payload free of quotes,
backslashes and control characters is a well-formed single-field text
object. -/
theorem parseClosingTemplate_plain (msg : String)
    (h : ∀ c ∈ msg.data, c ≠ '"' ∧ c ≠ '\\' ∧ 32 ≤ c.toNat) :
    parseJsonTextObject ("\x7b \"text\": \"*" ++ msg ++ "*\"\x7d") =
      some ("*" ++ msg ++ "*") := by
  have hdata : ("\x7b \"text\": \"*" ++ msg ++ "*\"\x7d").data
      = '\x7b' :: ' ' :: '"' :: 't' :: 'e' :: 'x' :: 't' :: '"' :: ':' ::
        ' ' :: '"' :: '*' :: (msg.data ++ ['*', '"', '\x7d']) := by
    cases msg with
    | mk l => rfl
  have hname : parseJStringAux
      (('t' :: 'e' :: 'x' :: 't' :: '"' :: ':' :: ' ' :: '"' :: '*' ::
        (msg.data ++ ['*', '"', '\x7d'])).length + 1)
      ('t' :: 'e' :: 'x' :: 't' :: '"' :: ':' :: ' ' :: '"' :: '*' ::
        (msg.data ++ ['*', '"', '\x7d']))
      = some (['t', 'e', 'x', 't'],
        ':' :: ' ' :: '"' :: '*' :: (msg.data ++ ['*', '"', '\x7d'])) := by
    have := parseJStringAux_plain ['t', 'e', 'x', 't']
      (('t' :: 'e' :: 'x' :: 't' :: '"' :: ':' :: ' ' :: '"' :: '*' ::
        (msg.data ++ ['*', '"', '\x7d'])).length + 1)
      (':' :: ' ' :: '"' :: '*' :: (msg.data ++ ['*', '"', '\x7d']))
      (by simp) (by decide)
    simpa using this
  have hval : parseJStringAux
      (('*' :: (msg.data ++ ['*', '"', '\x7d'])).length + 1)
      ('*' :: (msg.data ++ ['*', '"', '\x7d']))
      = some ('*' :: (msg.data ++ ['*']), ['\x7d']) := by
    have hb : ∀ c ∈ '*' :: (msg.data ++ ['*']),
        c ≠ '"' ∧ c ≠ '\\' ∧ 32 ≤ c.toNat := by
      intro c hc
      rcases List.mem_cons.mp hc with rfl | hc
      · exact ⟨by decide, by decide, by decide⟩
      rcases List.mem_append.mp hc with hc | hc
      · exact h c hc
      · simp at hc
        subst hc
        exact ⟨by decide, by decide, by decide⟩
    have := parseJStringAux_plain ('*' :: (msg.data ++ ['*']))
      (('*' :: (msg.data ++ ['*', '"', '\x7d'])).length + 1) ['\x7d']
      (by simp) hb
    have harr : ('*' :: (msg.data ++ ['*'])) ++ '"' :: ['\x7d']
        = '*' :: (msg.data ++ ['*', '"', '\x7d']) := by simp
    rw [harr] at this
    simpa using this
  rw [parseJsonTextObject, hdata]
  rw [skipWs_not_ws _ _ (by decide)]
  simp only [reduceIte]
  rw [skipWs_space, skipWs_not_ws _ _ (by decide)]
  simp only [reduceIte]
  rw [hname]
  simp only [reduceIte]
  rw [skipWs_not_ws _ _ (by decide)]
  simp only [reduceIte]
  rw [skipWs_space, skipWs_not_ws _ _ (by decide)]
  simp only [reduceIte]
  rw [hval]
  show some ('*' :: (msg.data ++ ['*'])).asString = some ("*" ++ msg ++ "*")
  have hfinal : ('*' :: (msg.data ++ ['*'])) = ("*" ++ msg ++ "*").data := by
    cases msg with
    | mk l => rfl
  rw [hfinal, asString_data]

/-- Recognize a closing-message event. -/
def isCloseEv : Ev → Bool
  | Ev.closeEv _ _ => true
  | _ => false

/-- Recognize a summary-delivery event. -/
def isSendSummaryEv : Ev → Bool
  | Ev.sendSummary _ _ _ => true
  | _ => false

/-- Recognize a permit acquisition. -/
def isAcquire : NotifyAction → Bool
  | NotifyAction.acquirePermit => true
  | _ => false

theorem runProducts_countP_zero (q : Ev → Bool)
    (fN : String → Ev × Except String (List (String × String)))
    (sO : String → List String → Except String String)
    (sd : String → String → Except String String) (url : String)
    (h1 : ∀ p, q (fN p).1 = false)
    (h2 : ∀ p sl, q (Ev.summarizeEv p sl) = false)
    (h3 : ∀ p s, q (Ev.sendSummary p s url) = false) :
    ∀ ps, ((runProducts fN sO sd url ps).1).countP q = 0 := by
  intro ps
  induction ps with
  | nil => simp [runProducts]
  | cons p ps ih =>
    cases hf : (fN p).2 with
    | error e => simp [runProducts, hf, List.countP_cons, h1 p]
    | ok notes =>
      cases hs : sO p (notesSlice notes) with
      | error e =>
        simp [runProducts, hf, hs, List.countP_cons, h1 p, h2]
      | ok summary =>
        cases hd : sd p summary with
        | error e =>
          simp [runProducts, hf, hs, hd, List.countP_cons, h1 p, h2, h3]
        | ok st =>
          simp [runProducts, hf, hs, hd, List.countP_cons, h1 p, h2, h3, ih]

/-- Shape of a channel trace when the product query succeeds: the query
event, then the announce event, then the per-product events, then the
closing event exactly when the loop completed and the list was
non-empty. -/
theorem runChannel_shape (o : Oracles) (url : String) (ci : Int)
    (fetchP : Ev × Except String (List String))
    (fN : String → Ev × Except String (List (String × String)))
    (ps : List String) (hok : fetchP.2 = Except.ok ps) :
    (runChannel o url ci fetchP fN).1
      = fetchP.1 :: Ev.announceEv url ci ps ::
        ((runProducts fN o.summarize (fun p s => o.sendToWebhook p s url)
            url ps).1
          ++ (if (runProducts fN o.summarize
                (fun p s => o.sendToWebhook p s url) url ps).2 = true
                ∧ ps.length > 0
              then [Ev.closeEv url closingText] else [])) := by
  cases hb : (runProducts fN o.summarize (fun p s => o.sendToWebhook p s url)
      url ps).2 with
  | false =>
    simp [runChannel, hok, hb]
  | true =>
    by_cases hl : ps.length > 0
    · cases hc : o.closingMessage url closingText with
      | error e => simp [runChannel, hok, hb, hl, hc]
      | ok st => simp [runChannel, hok, hb, hl, hc]
    · simp [runChannel, hok, hb, hl]

/-- A channel run that ends well had a per-product loop that ran to
completion. -/
theorem runChannel_ok_body (o : Oracles) (url : String) (ci : Int)
    (fetchP : Ev × Except String (List String))
    (fN : String → Ev × Except String (List (String × String)))
    (ps : List String) (hok : fetchP.2 = Except.ok ps)
    (h : (runChannel o url ci fetchP fN).2 = true) :
    (runProducts fN o.summarize (fun p s => o.sendToWebhook p s url)
      url ps).2 = true := by
  by_contra hb
  have hb' : (runProducts fN o.summarize (fun p s => o.sendToWebhook p s url)
      url ps).2 = false := by
    cases hx : (runProducts fN o.summarize
        (fun p s => o.sendToWebhook p s url) url ps).2
    · rfl
    · exact absurd hx hb
  rw [runChannel, hok] at h
  simp [hb'] at h

/-- Ordering and guard facts for one channel run whose product query
succeeded: the trace starts with the query then the announce; a closing
event implies a non-empty product list; on a completed run the closing
event is present exactly when the list is non-empty and is the last
event. -/
theorem runChannel_close_props (o : Oracles) (url : String) (ci : Int)
    (fetchP : Ev × Except String (List String))
    (fN : String → Ev × Except String (List (String × String)))
    (ps : List String) (hok : fetchP.2 = Except.ok ps)
    (hq : isCloseEv fetchP.1 = false)
    (hn : ∀ p, isCloseEv (fN p).1 = false) :
    (∃ rest, (runChannel o url ci fetchP fN).1
      = fetchP.1 :: Ev.announceEv url ci ps :: rest)
    ∧ (0 < (runChannel o url ci fetchP fN).1.countP isCloseEv → ps ≠ [])
    ∧ ((runChannel o url ci fetchP fN).2 = true →
        ((runChannel o url ci fetchP fN).1.countP isCloseEv = 1 ↔ ps ≠ []))
    ∧ ((runChannel o url ci fetchP fN).2 = true → ps ≠ [] →
        (runChannel o url ci fetchP fN).1.getLast?
          = some (Ev.closeEv url closingText)) := by
  have hsh := runChannel_shape o url ci fetchP fN ps hok
  have hz : ((runProducts fN o.summarize (fun p s => o.sendToWebhook p s url)
      url ps).1).countP isCloseEv = 0 :=
    runProducts_countP_zero isCloseEv fN _ _ url hn (fun _ _ => rfl)
      (fun _ _ => rfl) ps
  have hcount : (runChannel o url ci fetchP fN).1.countP isCloseEv
      = if (runProducts fN o.summarize (fun p s => o.sendToWebhook p s url)
            url ps).2 = true ∧ ps.length > 0 then 1 else 0 := by
    rw [hsh]
    have ha : isCloseEv (Ev.announceEv url ci ps) = false := rfl
    have hc : isCloseEv (Ev.closeEv url closingText) = true := rfl
    by_cases hcond : (runProducts fN o.summarize
        (fun p s => o.sendToWebhook p s url) url ps).2 = true
        ∧ ps.length > 0
    · simp [hcond, List.countP_cons, List.countP_append, hz, hq, ha, hc]
    · simp [hcond, List.countP_cons, List.countP_append, hz, hq, ha, hc]
  refine ⟨⟨_, hsh⟩, ?_, ?_, ?_⟩
  · intro hpos
    rw [hcount] at hpos
    by_cases hcond : (runProducts fN o.summarize
        (fun p s => o.sendToWebhook p s url) url ps).2 = true
        ∧ ps.length > 0
    · exact List.length_pos.mp hcond.2
    · simp [hcond] at hpos
  · intro hok2
    have hb := runChannel_ok_body o url ci fetchP fN ps hok hok2
    rw [hcount]
    constructor
    · intro h1
      by_cases hl : ps.length > 0
      · exact List.length_pos.mp hl
      · simp [hb, hl] at h1
    · intro hps
      have hl : ps.length > 0 := List.length_pos.mpr hps
      simp [hb, hl]
  · intro hok2 hps
    have hb := runChannel_ok_body o url ci fetchP fN ps hok hok2
    have hl : ps.length > 0 := List.length_pos.mpr hps
    rw [hsh]
    have hassoc : fetchP.1 :: Ev.announceEv url ci ps ::
        ((runProducts fN o.summarize (fun p s => o.sendToWebhook p s url)
            url ps).1 ++ [Ev.closeEv url closingText])
        = (fetchP.1 :: Ev.announceEv url ci ps ::
            (runProducts fN o.summarize (fun p s => o.sendToWebhook p s url)
              url ps).1) ++ [Ev.closeEv url closingText] := by
      simp
    simp only [hb, hl, and_self, if_pos, reduceIte]
    rw [hassoc, List.getLast?_concat]

/-! ## Concrete fixtures used by witnesses and counterexamples -/

/-- Oracles in which every external call succeeds. -/
def okOracles : Oracles :=
  { getProductsbyReleaseType := fun _ _ => Except.ok ["prodA"],
    getProducts := fun _ _ => Except.ok ["prodA"],
    getReleaseNotesbyType := fun _ _ _ => Except.ok [("FEATURE", "d")],
    getReleaseNotes := fun _ _ _ => Except.ok [("FEATURE", "d")],
    summarize := fun _ _ => Except.ok "sum",
    announce := fun _ _ _ => Except.ok "200 OK",
    sendToWebhook := fun _ _ _ => Except.ok "200 OK",
    closingMessage := fun _ _ => Except.ok "200 OK" }

/-- Oracles in which every call succeeds except the Announce webhook
post, which fails with a transport error. -/
def announceFailOracles : Oracles :=
  { getProductsbyReleaseType := fun _ _ => Except.ok ["prodA"],
    getProducts := fun _ _ => Except.ok [],
    getReleaseNotesbyType := fun _ _ _ => Except.ok [("BREAKING_CHANGE", "d")],
    getReleaseNotes := fun _ _ _ => Except.ok [],
    summarize := fun _ _ => Except.ok "sum",
    announce := fun _ _ _ => Except.error "announce transport failure",
    sendToWebhook := fun _ _ _ => Except.ok "200 OK",
    closingMessage := fun _ _ => Except.ok "200 OK" }

/-- A valid configuration with exactly one specific channel. -/
def announceFailConfig : Config :=
  { projectID := "p", model := "m", modelLocation := "l", cadence := "7",
    chGeneral := "", chBreakingChange := "url1", chDeprecation := "",
    chFeature := "", chFix := "", chIssue := "", chLibraries := "",
    chNonBreakingChange := "", chSecurityBulletin := "",
    chServiceAnnouncement := "" }

/-- A configuration in which no webhook channel at all is set. -/
def emptyChannelsConfig : Config :=
  { projectID := "p", model := "m", modelLocation := "l", cadence := "7",
    chGeneral := "", chBreakingChange := "", chDeprecation := "",
    chFeature := "", chFix := "", chIssue := "", chLibraries := "",
    chNonBreakingChange := "", chSecurityBulletin := "",
    chServiceAnnouncement := "" }

/-- A configuration whose cadence is not an integer. -/
def badCadenceConfig : Config :=
  { projectID := "p", model := "m", modelLocation := "l",
    cadence := "weekly",
    chGeneral := "urlG", chBreakingChange := "url1", chDeprecation := "",
    chFeature := "", chFix := "", chIssue := "", chLibraries := "",
    chNonBreakingChange := "", chSecurityBulletin := "",
    chServiceAnnouncement := "" }

/-! ## Claims -/

/-- C1 (counterexample): the rolling-window form of the claim fails.  A
limiter with ceiling 1 and window length 2 created at time 0 issues a
permit at time 1 and, after the fixed-window refill, another at time 2;
the rolling window of length 2 starting at time 1 (covering times 1 and 2)
thus contains 2 issued permits, exceeding the ceiling 1. -/
theorem rollingWindow_ceiling_violated :
    issuedTimes (newRateLimiter 1 2 0) [1, 2] = [1, 2]
    ∧ (issuedTimes (newRateLimiter 1 2 0) [1, 2]).countP
        (fun t => decide (1 ≤ t) && decide (t < 1 + 2)) = 2
    ∧ ¬ ((issuedTimes (newRateLimiter 1 2 0) [1, 2]).countP
        (fun t => decide (1 ≤ t) && decide (t < 1 + 2)) ≤ 1) := by decide

/-- C1 (amended): the limiter enforces the ceiling per fixed window, not
per rolling window: (1) while no refill fires (all attempt times inside
the current window, window length positive) the limiter created by
newRateLimiter issues at most its ceiling of permits; (2) once a full
window has elapsed the pool is refilled to full capacity, so exactly the
ceiling of further acquisitions succeed and the next one blocks.  A
rolling window spanning a refill may see up to twice the ceiling. -/
theorem fixedWindow_ceiling_holds :
    (∀ (L D n0 : Nat) (ts : List Nat), 0 < D →
        (∀ t ∈ ts, t < n0 + D) →
        issuedCount (newRateLimiter L D n0) ts ≤ L)
    ∧ (∀ (rl : rateLimiter) (t : Nat), 0 < rl.duration → 0 < rl.limit →
        rl.duration ≤ t - rl.lastReset →
        issuedCount rl (List.replicate rl.limit t) = rl.limit
        ∧ issuedCount rl (List.replicate (rl.limit + 1) t) = rl.limit) := by
  constructor
  · intro L D n0 ts hD hw
    exact issuedCount_le_tokens ts (newRateLimiter L D n0) hD hw
  · intro rl t hD hL hres
    have hstep : rl.acquire t =
        ({ rl with tokens := rl.limit - 1, lastReset := t }, true) := by
      have hne : ¬ rl.limit = 0 := by omega
      simp [rateLimiter.acquire, rateLimiter.reset, hres, hne]
    obtain ⟨n, hn⟩ : ∃ n, rl.limit = n + 1 := ⟨rl.limit - 1, by omega⟩
    have hrep := issuedCount_replicate n
      { rl with tokens := rl.limit - 1, lastReset := t } t hD rfl
    have hrep2 := issuedCount_replicate (n + 1)
      { rl with tokens := rl.limit - 1, lastReset := t } t hD rfl
    have htk : ({ rl with tokens := rl.limit - 1, lastReset := t } :
        rateLimiter).tokens = rl.limit - 1 := rfl
    rw [htk] at hrep hrep2
    constructor
    · rw [hn, List.replicate_succ, issuedCount_cons, hstep]
      show 1 + issuedCount { rl with tokens := rl.limit - 1, lastReset := t }
        (List.replicate n t) = n + 1
      rw [hrep]
      omega
    · rw [List.replicate_succ, issuedCount_cons, hstep]
      show 1 + issuedCount { rl with tokens := rl.limit - 1, lastReset := t }
        (List.replicate rl.limit t) = rl.limit
      have hgoal : List.replicate rl.limit t = List.replicate (n + 1) t := by
        rw [hn]
      rw [hgoal, hrep2]
      omega

/-- C1 witness: concrete instantiations of both halves of the amended
statement. -/
theorem fixedWindow_ceiling_holds_witness :
    issuedCount (newRateLimiter 2 5 0) [1, 2, 3] ≤ 2
    ∧ issuedCount ⟨2, 5, 0, 0⟩ (List.replicate 2 7) = 2
    ∧ issuedCount ⟨2, 5, 0, 0⟩ (List.replicate 3 7) = 2 :=
  ⟨fixedWindow_ceiling_holds.1 2 5 0 [1, 2, 3] (by decide) (by decide),
   (fixedWindow_ceiling_holds.2 ⟨2, 5, 0, 0⟩ 7 (by decide) (by decide)
     (by decide)).1,
   (fixedWindow_ceiling_holds.2 ⟨2, 5, 0, 0⟩ 7 (by decide) (by decide)
     (by decide)).2⟩

/-- C2: the claim that every failure, including a failure of the Announce
send, halts the invocation is contradicted by the code: the call site
discards the Announce result and checks a stale err that is necessarily
nil there.  With every other call succeeding and the Announce post
failing, the run performs the full remaining pipeline (notes query,
summarization, summary delivery, closing message) and completes. -/
theorem digest_ignores_announce_failure :
    announceFailOracles.announce "url1" 7 ["prodA"]
      = Except.error "announce transport failure"
    ∧ digest announceFailConfig announceFailOracles
      = ([Ev.queryProductsByType "BREAKING_CHANGE" "7",
          Ev.announceEv "url1" 7 ["prodA"],
          Ev.queryNotesByType "prodA" "BREAKING_CHANGE" "7",
          Ev.summarizeEv "prodA" ["BREAKING_CHANGE", "d"],
          Ev.sendSummary "prodA" "sum" "url1",
          Ev.closeEv "url1" closingText], Outcome.completed) :=
  ⟨rfl, by decide⟩

/-- C3: SendToWebhook performs exactly one permit acquisition, before its
single send; Announce and ClosingMessage acquire none; the process-wide
limiter is configured with ceiling 50 and a one-minute (60 second) window;
an acquire with an empty pool inside the window issues nothing (the Go
call blocks), and an acquire after the window has elapsed succeeds. -/
theorem sendToWebhook_acquires_one_permit :
    webhookRateLimiter.limit = 50 ∧ webhookRateLimiter.duration = 60
    ∧ (∀ (p s u : String) (t : Transport),
        (SendToWebhook p s u t).1
          = [NotifyAction.acquirePermit,
            NotifyAction.send (mkRequest u
              ("\x7b\"text\": \"*" ++ p ++ ":*\\n\\n" ++ s ++ "\n\n\"\x7d"))])
    ∧ (∀ (u : String) (n c : Int) (f : Int → String) (ps : List String)
        (t : Transport), (Announce u n c f ps t).1.countP isAcquire = 0)
    ∧ (∀ (u m : String) (t : Transport),
        (ClosingMessage u m t).1.countP isAcquire = 0)
    ∧ (∀ (rl : rateLimiter) (now : Nat), rl.tokens = 0 →
        now - rl.lastReset < rl.duration → (rl.acquire now).2 = false)
    ∧ (∀ (rl : rateLimiter) (now : Nat), rl.duration ≤ now - rl.lastReset →
        0 < rl.limit → (rl.acquire now).2 = true) := by
  refine ⟨rfl, rfl, fun p s u t => rfl, fun u n c f ps t => rfl,
    fun u m t => rfl, ?_, ?_⟩
  · intro rl now h0 hin
    have hnores : ¬ rl.duration ≤ now - rl.lastReset := by omega
    simp [rateLimiter.acquire, hnores, h0]
  · intro rl now hres hL
    have hne : ¬ rl.limit = 0 := by omega
    simp [rateLimiter.acquire, rateLimiter.reset, hres, hne]

/-- C3 witness: the blocking and unblocking halves at a concrete state. -/
theorem sendToWebhook_acquires_one_permit_witness :
    (rateLimiter.acquire ⟨50, 60, 0, 0⟩ 30).2 = false
    ∧ (rateLimiter.acquire ⟨50, 60, 0, 0⟩ 60).2 = true :=
  ⟨sendToWebhook_acquires_one_permit.2.2.2.2.2.1 ⟨50, 60, 0, 0⟩ 30 rfl
      (by decide),
   sendToWebhook_acquires_one_permit.2.2.2.2.2.2 ⟨50, 60, 0, 0⟩ 60
      (by decide) (by decide)⟩

/-- C4: Announce always performs exactly one send: with an empty product
list the message body is the template around an empty text; with a
non-empty list the single message lists each product as a bullet line,
carries the count of products, and carries the as-of date computed as
today minus the lookback in days. -/
theorem announce_always_sends_once :
    ∀ (url : String) (now cad : Int) (fmtDate : Int → String) (t : Transport),
      (Announce url now cad fmtDate [] t).1
        = [NotifyAction.send (mkRequest url "\x7b\"text\": \"\"\x7d")]
      ∧ ∀ (ps : List String), ps ≠ [] →
        (Announce url now cad fmtDate ps t).1
          = [NotifyAction.send (mkRequest url
              ("\x7b\"text\": \""
                ++ ("*Found release notes for " ++ toString ps.length
                  ++ " products since " ++ fmtDate (now - cad) ++ "*\n"
                  ++ String.join (ps.map (fun p => "* *" ++ p ++ "*\n"))
                  ++ "\n\n*And here it is...*")
                ++ "\"\x7d"))] := by
  intro url now cad fmtDate t
  constructor
  · rfl
  · intro ps hps
    have hl : ps.length > 0 := List.length_pos.mpr hps
    simp [Announce, SendMessage, announceMsgText, hl]

/-- C4 witness: a concrete non-empty announce. -/
theorem announce_always_sends_once_witness :
    (Announce "u" 10 3 (fun i => toString i) ["A"]
        (Transport.response 200 "200 OK")).1
      = [NotifyAction.send (mkRequest "u"
          ("\x7b\"text\": \""
            ++ ("*Found release notes for "
              ++ toString (["A"] : List String).length
              ++ " products since " ++ (fun i : Int => toString i) (10 - 3)
              ++ "*\n"
              ++ String.join ((["A"] : List String).map
                  (fun p => "* *" ++ p ++ "*\n"))
              ++ "\n\n*And here it is...*")
            ++ "\"\x7d"))] :=
  (announce_always_sends_once "u" 10 3 (fun i => toString i)
    (Transport.response 200 "200 OK")).2 ["A"] (by decide)

/-- C5: for every channel (each category-specific channel and the GENERAL
channel) whose product query succeeded: the trace begins with the product
query followed immediately by the Announce, so the Announce precedes all
per-product summary deliveries; a closing event can only occur for a
non-empty product list; and when the channel runs to completion the
closing event is present exactly when the list is non-empty and is the
last event of the channel trace, after all per-product work. -/
theorem channel_announce_before_close_after :
    (∀ (o : Oracles) (cadence : String) (ci : Int) (typ url : String)
        (ps : List String),
      o.getProductsbyReleaseType typ cadence = Except.ok ps →
      (∃ rest, (specificChannel o cadence ci typ url).1
        = Ev.queryProductsByType typ cadence
          :: Ev.announceEv url ci ps :: rest)
      ∧ (0 < (specificChannel o cadence ci typ url).1.countP isCloseEv →
          ps ≠ [])
      ∧ ((specificChannel o cadence ci typ url).2 = true →
          ((specificChannel o cadence ci typ url).1.countP isCloseEv = 1 ↔
            ps ≠ []))
      ∧ ((specificChannel o cadence ci typ url).2 = true → ps ≠ [] →
          (specificChannel o cadence ci typ url).1.getLast?
            = some (Ev.closeEv url closingText)))
    ∧ (∀ (o : Oracles) (cadence : String) (ci : Int) (url : String)
        (noActive : List String) (ps : List String),
      o.getProducts noActive cadence = Except.ok ps →
      (∃ rest, (generalChannel o cadence ci url noActive).1
        = Ev.queryProducts noActive cadence
          :: Ev.announceEv url ci ps :: rest)
      ∧ (0 < (generalChannel o cadence ci url noActive).1.countP isCloseEv →
          ps ≠ [])
      ∧ ((generalChannel o cadence ci url noActive).2 = true →
          ((generalChannel o cadence ci url noActive).1.countP isCloseEv = 1 ↔
            ps ≠ []))
      ∧ ((generalChannel o cadence ci url noActive).2 = true → ps ≠ [] →
          (generalChannel o cadence ci url noActive).1.getLast?
            = some (Ev.closeEv url closingText))) := by
  constructor
  · intro o cadence ci typ url ps hok
    exact runChannel_close_props o url ci
      (Ev.queryProductsByType typ cadence,
        o.getProductsbyReleaseType typ cadence)
      (fun p => (Ev.queryNotesByType p typ cadence,
        o.getReleaseNotesbyType p typ cadence)) ps hok rfl (fun _ => rfl)
  · intro o cadence ci url noActive ps hok
    exact runChannel_close_props o url ci
      (Ev.queryProducts noActive cadence, o.getProducts noActive cadence)
      (fun p => (Ev.queryNotes p noActive cadence,
        o.getReleaseNotes p noActive cadence)) ps hok rfl (fun _ => rfl)

/-- C5 witness: a concrete channel run with one product. -/
theorem channel_announce_before_close_after_witness :
    (∃ rest, (specificChannel okOracles "7" 7 "FEATURE" "u").1
      = Ev.queryProductsByType "FEATURE" "7"
        :: Ev.announceEv "u" 7 ["prodA"] :: rest)
    ∧ ((specificChannel okOracles "7" 7 "FEATURE" "u").2 = true →
        ((specificChannel okOracles "7" 7 "FEATURE" "u").1.countP isCloseEv
          = 1 ↔ (["prodA"] : List String) ≠ [])) :=
  ⟨(channel_announce_before_close_after.1 okOracles "7" 7 "FEATURE" "u"
      ["prodA"] rfl).1,
   (channel_announce_before_close_after.1 okOracles "7" 7 "FEATURE" "u"
      ["prodA"] rfl).2.2.1⟩

/-- C6: when the GENERAL webhook and all nine category webhooks are empty,
digest returns having performed no external call at all: the trace is
empty and the outcome is the configuration abort. -/
theorem digest_aborts_without_channels :
    ∀ (cfg : Config) (o : Oracles),
      cfg.chGeneral = "" → cfg.chBreakingChange = "" →
      cfg.chDeprecation = "" → cfg.chFeature = "" → cfg.chFix = "" →
      cfg.chIssue = "" → cfg.chLibraries = "" →
      cfg.chNonBreakingChange = "" → cfg.chSecurityBulletin = "" →
      cfg.chServiceAnnouncement = "" →
      digest cfg o = ([], Outcome.configAbort) := by
  intro cfg o hG h1 h2 h3 h4 h5 h6 h7 h8 h9
  have hact : activeChannels cfg = [] := by
    simp [activeChannels, channelNames, channelValues,
      h1, h2, h3, h4, h5, h6, h7, h8, h9]
  by_cases c1 : cfg.projectID = ""
  · simp [digest, c1]
  by_cases c2 : cfg.model = ""
  · simp [digest, c1, c2]
  by_cases c3 : cfg.modelLocation = ""
  · simp [digest, c1, c2, c3]
  by_cases c4 : cfg.cadence = ""
  · simp [digest, c1, c2, c3, c4]
  cases hat : atoi cfg.cadence with
  | none => simp [digest, c1, c2, c3, c4, hat]
  | some ci => simp [digest, c1, c2, c3, c4, hat, hG, hact]

/-- C6 witness: the all-empty configuration aborts with an empty trace. -/
theorem digest_aborts_without_channels_witness :
    digest emptyChannelsConfig okOracles = ([], Outcome.configAbort) :=
  digest_aborts_without_channels emptyChannelsConfig okOracles
    rfl rfl rfl rfl rfl rfl rfl rfl rfl rfl

/-- C7: in all four query builders the SQL text is independent of the
product name, category label and category set (those are bound as named
query parameters, whose exact binding lists are given), while the lookback
cadence is the one value concatenated into the text; and the orchestrator
validates the cadence as an integer before any query: with a non-integer
cadence, digest performs no call. -/
theorem queries_bind_parameters :
    (∀ (rt1 rt2 cad : String),
      (GetProductsbyReleaseTypeQuery rt1 cad).text
        = (GetProductsbyReleaseTypeQuery rt2 cad).text)
    ∧ (∀ (rt cad : String),
      (GetProductsbyReleaseTypeQuery rt cad).parameters
        = [⟨"release_note_type", ParamVal.str rt⟩])
    ∧ (∀ (l1 l2 : List String) (cad : String),
      (GetProductsQuery l1 cad).text = (GetProductsQuery l2 cad).text)
    ∧ (∀ (l : List String) (cad : String),
      (GetProductsQuery l cad).parameters
        = [⟨"noActiveChannel", ParamVal.strList l⟩])
    ∧ (∀ (p1 p2 : String) (l1 l2 : List String) (cad : String),
      (GetReleaseNotesQuery p1 l1 cad).text
        = (GetReleaseNotesQuery p2 l2 cad).text)
    ∧ (∀ (p : String) (l : List String) (cad : String),
      (GetReleaseNotesQuery p l cad).parameters
        = [⟨"product", ParamVal.str p⟩,
           ⟨"noActiveChannel", ParamVal.strList l⟩])
    ∧ (∀ (p1 p2 rt1 rt2 cad : String),
      (GetReleaseNotesbyTypeQuery p1 rt1 cad).text
        = (GetReleaseNotesbyTypeQuery p2 rt2 cad).text)
    ∧ (∀ (p rt cad : String),
      (GetReleaseNotesbyTypeQuery p rt cad).parameters
        = [⟨"release_note_type", ParamVal.str rt⟩,
           ⟨"product", ParamVal.str p⟩])
    ∧ (∀ (rt cad : String),
        cad.data <:+: (GetProductsbyReleaseTypeQuery rt cad).text.data)
    ∧ (∀ (cfg : Config) (o : Oracles), atoi cfg.cadence = none →
        digest cfg o = ([], Outcome.configAbort)) := by
  refine ⟨fun _ _ _ => rfl, fun _ _ => rfl, fun _ _ _ => rfl,
    fun _ _ => rfl, fun _ _ _ _ _ => rfl, fun _ _ _ => rfl,
    fun _ _ _ _ _ => rfl, fun _ _ _ => rfl, ?_, ?_⟩
  · intro rt cad
    refine ⟨("\nSELECT \n\tDISTINCT product_name as product\nFROM bigquery-public-data.google_cloud_release_notes.release_notes\nWHERE\n\tpublished_at >= DATE_SUB(CURRENT_DATE(), INTERVAL " : String).data,
      (" DAY)\n\tAND release_note_type = @release_note_type\nORDER BY product_name ASC\n\t" : String).data, ?_⟩
    cases cad with
    | mk l => rfl
  · intro cfg o hat
    by_cases c1 : cfg.projectID = ""
    · simp [digest, c1]
    by_cases c2 : cfg.model = ""
    · simp [digest, c1, c2]
    by_cases c3 : cfg.modelLocation = ""
    · simp [digest, c1, c2, c3]
    by_cases c4 : cfg.cadence = ""
    · simp [digest, c1, c2, c3, c4]
    simp [digest, c1, c2, c3, c4, hat]

/-- C7 witness: a non-integer cadence aborts with no calls. -/
theorem queries_bind_parameters_witness :
    digest badCadenceConfig okOracles = ([], Outcome.configAbort) :=
  queries_bind_parameters.2.2.2.2.2.2.2.2.2 badCadenceConfig okOracles
    (by decide)

/-- C8 (counterexample): with a closing text containing a double quote,
ClosingMessage posts a body that is not a well-formed JSON single-field
text object (the parser rejects it), yet the post is performed and the
status line is returned as success. -/
theorem notifier_body_not_json_counterexample :
    (ClosingMessage "u" "a\x22b" (Transport.response 200 "200 OK")).1
      = [NotifyAction.send
          { method := "POST", url := "u",
            contentType := "application/json; charset=UTF-8",
            body := "\x7b \"text\": \"*a\x22b*\"\x7d" }]
    ∧ (ClosingMessage "u" "a\x22b" (Transport.response 200 "200 OK")).2
      = Except.ok "200 OK"
    ∧ parseJsonTextObject "\x7b \"text\": \"*a\x22b*\"\x7d" = none := by
  refine ⟨rfl, rfl, by decide⟩

/-- C8 (amended): each of the four operations performs its HTTP POST with
Content-Type application/json; charset=UTF-8 and returns the status line
of a received response; the body is the fixed brace-text template with the
caller's strings interpolated verbatim and unescaped, so the body is a
well-formed JSON text object only for payloads needing no escaping
(guaranteed here for closing payloads free of quotes, backslashes and
control characters), while payloads containing quotes or control
characters can produce malformed bodies. -/
theorem notifier_template_posts :
    (∀ (u m : String), (mkRequest u m).method = "POST"
      ∧ (mkRequest u m).contentType = "application/json; charset=UTF-8"
      ∧ (mkRequest u m).url = u ∧ (mkRequest u m).body = m)
    ∧ (∀ (u m : String) (t : Transport),
      (SendMessage u m t).1 = [NotifyAction.send (mkRequest u m)])
    ∧ (∀ (u m : String) (t : Transport),
      (ClosingMessage u m t).1
        = [NotifyAction.send
            (mkRequest u ("\x7b \"text\": \"*" ++ m ++ "*\"\x7d"))])
    ∧ (∀ (u m : String) (c : Nat) (st : String),
      (ClosingMessage u m (Transport.response c st)).2 = Except.ok st)
    ∧ (∀ (p s u : String) (t : Transport),
      (SendToWebhook p s u t).1
        = [NotifyAction.acquirePermit,
          NotifyAction.send (mkRequest u
            ("\x7b\"text\": \"*" ++ p ++ ":*\\n\\n" ++ s ++ "\n\n\"\x7d"))])
    ∧ (∀ (p s u : String) (c : Nat) (st : String),
      (SendToWebhook p s u (Transport.response c st)).2 = Except.ok st)
    ∧ (∀ (url : String) (now cad : Int) (f : Int → String) (ps : List String)
        (t : Transport),
      (Announce url now cad f ps t).1
        = [NotifyAction.send (mkRequest url
            ("\x7b\"text\": \"" ++ announceMsgText (f (now - cad)) ps
              ++ "\"\x7d"))])
    ∧ (∀ (url : String) (now cad : Int) (f : Int → String) (ps : List String)
        (c : Nat) (st : String),
      (Announce url now cad f ps (Transport.response c st)).2 = Except.ok st)
    ∧ (∀ (m : String), (∀ c ∈ m.data, c ≠ '"' ∧ c ≠ '\\' ∧ 32 ≤ c.toNat) →
        parseJsonTextObject ("\x7b \"text\": \"*" ++ m ++ "*\"\x7d")
          = some ("*" ++ m ++ "*")) :=
  ⟨fun _ _ => ⟨rfl, rfl, rfl, rfl⟩, fun _ _ _ => rfl, fun _ _ _ => rfl,
   fun _ _ _ _ => rfl, fun _ _ _ _ => rfl, fun _ _ _ _ _ => rfl,
   fun _ _ _ _ _ _ => rfl, fun _ _ _ _ _ _ _ => rfl,
   parseClosingTemplate_plain⟩

/-- C8 witness: a quote-free closing payload yields a well-formed body. -/
theorem notifier_template_posts_witness :
    parseJsonTextObject ("\x7b \"text\": \"*" ++ "ok" ++ "*\"\x7d")
      = some ("*" ++ "ok" ++ "*") :=
  notifier_template_posts.2.2.2.2.2.2.2.2 "ok" (by decide)

/-- C9: over any table, the products query text yields distinct product
names sorted ascending, containing exactly the products having a matching
row in the window; the notes query text yields deduplicated
(category, description) pairs, at most 1000 of them, sorted ascending by
category, all coming from matching rows. -/
theorem query_semantics_distinct_sorted_capped :
    ∀ (table : List NoteRow) (typ product : String) (cadence : Nat),
      (productsByTypeRows table typ cadence).Nodup
      ∧ (productsByTypeRows table typ cadence).Sorted (· ≤ ·)
      ∧ (∀ p, p ∈ productsByTypeRows table typ cadence ↔
          ∃ r ∈ table, r.daysAgo ≤ cadence ∧ r.release_note_type = typ
            ∧ r.product_name = p)
      ∧ (releaseNotesByTypeRows table product typ cadence).Nodup
      ∧ (releaseNotesByTypeRows table product typ cadence).length ≤ 1000
      ∧ (releaseNotesByTypeRows table product typ cadence).Sorted
          (fun a b => a.1 ≤ b.1)
      ∧ (∀ x ∈ releaseNotesByTypeRows table product typ cadence,
          ∃ r ∈ table, r.daysAgo ≤ cadence ∧ r.product_name = product
            ∧ r.release_note_type = typ
            ∧ (r.release_note_type, r.description) = x) := by
  intro table typ product cadence
  refine ⟨?_, ?_, ?_, ?_, ?_, ?_, ?_⟩
  · exact (List.perm_insertionSort _ _).symm.nodup (List.nodup_dedup _)
  · exact List.sorted_insertionSort _ _
  · intro p
    rw [productsByTypeRows, (List.perm_insertionSort _ _).mem_iff,
      List.mem_dedup, List.mem_map]
    constructor
    · rintro ⟨r, hr, rfl⟩
      rw [List.mem_filter] at hr
      have hcond := hr.2
      simp only [Bool.and_eq_true, decide_eq_true_eq, beq_iff_eq] at hcond
      exact ⟨r, hr.1, hcond.1, hcond.2, rfl⟩
    · rintro ⟨r, hr, hd, ht, hp⟩
      exact ⟨r, List.mem_filter.mpr ⟨hr, by simp [hd, ht]⟩, hp⟩
  · exact List.Nodup.sublist (List.take_sublist _ _)
      ((List.perm_insertionSort _ _).symm.nodup (List.nodup_dedup _))
  · exact List.length_take_le _ _
  · exact List.Pairwise.sublist (List.take_sublist _ _)
      (List.sorted_insertionSort _ _)
  · intro x hx
    have hx2 : x ∈ List.insertionSort (fun a b => a.1 ≤ b.1)
        (((table.filter (fun r => r.daysAgo ≤ cadence
            && r.product_name == product
            && r.release_note_type == typ)).map
          (fun r => (r.release_note_type, r.description))).dedup) :=
      (List.take_sublist _ _).subset hx
    rw [(List.perm_insertionSort _ _).mem_iff, List.mem_dedup,
      List.mem_map] at hx2
    obtain ⟨r, hr, hrx⟩ := hx2
    rw [List.mem_filter] at hr
    have hcond := hr.2
    simp only [Bool.and_eq_true, decide_eq_true_eq, beq_iff_eq] at hcond
    exact ⟨r, hr.1, hcond.1.1, hcond.1.2, hcond.2, hrx⟩

/-- C10: SendMessage maps any received response, whatever its status code
(including 4xx and 5xx), to the status line with no error; only request
construction and connection failures produce an error. -/
theorem sendMessage_ignores_status_code :
    ∀ (url msg : String) (code : Nat) (status e : String),
      (SendMessage url msg (Transport.response code status)).2
        = Except.ok status
      ∧ (SendMessage url msg (Transport.response 500
          "500 Internal Server Error")).2
        = Except.ok "500 Internal Server Error"
      ∧ (SendMessage url msg (Transport.reqError e)).2 = Except.error e
      ∧ (SendMessage url msg (Transport.doError e)).2 = Except.error e :=
  fun _ _ _ _ _ => ⟨rfl, rfl, rfl, rfl⟩
